import Mathlib

/-!
Shallow embedding of the real-time presence-and-relay subsystem of the
Musix chat application: the socket server (`src/backend/src/lib/socket.js`)
and the client session mirror (`src/frontend/src/stores/useChatStore.ts`).

JavaScript `Map` objects are embedded as association lists with
insertion-order semantics: `Map.set` on an existing key overwrites the value
in place (keeping the key's position), `Map.set` on a fresh key appends,
`Map.delete` removes the (unique) entry, and `Map.keys()` iterates keys in
insertion order.  Event emissions (`io.emit`, `io.to(sid).emit`,
`socket.emit`) are embedded as lists of `Emit` values returned by each
handler alongside the updated state.
-/

set_option autoImplicit false

universe u v

/-- `Map.set k v` on an association list: overwrite in place if the key is
present, append otherwise (JavaScript `Map.set` semantics). -/
def mapSet {α : Type u} {β : Type v} [DecidableEq α] :
    List (α × β) → α → β → List (α × β)
  | [], k, v => [(k, v)]
  | (k', v') :: rest, k, v =>
    if k' = k then (k, v) :: rest else (k', v') :: mapSet rest k v

/-- `Map.get k`: the value of the first entry with key `k`, if any. -/
def mapGet {α : Type u} {β : Type v} [DecidableEq α] :
    List (α × β) → α → Option β
  | [], _ => none
  | (k', v') :: rest, k => if k' = k then some v' else mapGet rest k

/-- `Map.delete k`: remove the first entry with key `k` (a well-formed JS
`Map` has at most one). -/
def mapDelete {α : Type u} {β : Type v} [DecidableEq α] :
    List (α × β) → α → List (α × β)
  | [], _ => []
  | (k', v') :: rest, k =>
    if k' = k then rest else (k', v') :: mapDelete rest k

/-- `Array.from(map.keys())`: the keys in insertion order. -/
def mapKeys {α : Type u} {β : Type v} (m : List (α × β)) : List α :=
  m.map Prod.fst

theorem mem_mapKeys_mapSet {α : Type u} {β : Type v} [DecidableEq α]
    (m : List (α × β)) (a k : α) (v : β) :
    k ∈ mapKeys (mapSet m a v) ↔ k = a ∨ k ∈ mapKeys m := by
  induction m with
  | nil => simp [mapSet, mapKeys]
  | cons hd tl ih =>
    by_cases h : hd.1 = a
    · cases hd with
      | mk k' v' =>
        simp only at h
        simp [mapSet, h, mapKeys]
    · cases hd with
      | mk k' v' =>
        simp only at h
        simp only [mapSet, h, if_false, mapKeys, List.map_cons, List.mem_cons]
        rw [show (mapKeys (mapSet tl a v) = List.map Prod.fst (mapSet tl a v)) from rfl] at ih
        rw [show (mapKeys tl = List.map Prod.fst tl) from rfl] at ih
        tauto

theorem nodup_mapKeys_mapSet {α : Type u} {β : Type v} [DecidableEq α]
    (m : List (α × β)) (a : α) (v : β)
    (h : (mapKeys m).Nodup) : (mapKeys (mapSet m a v)).Nodup := by
  induction m with
  | nil => simp [mapSet, mapKeys]
  | cons hd tl ih =>
    cases hd with
    | mk k' v' =>
      simp only [mapKeys, List.map_cons, List.nodup_cons] at h
      by_cases hk : k' = a
      · subst hk
        simp only [mapSet, if_true]
        simp only [mapKeys, List.map_cons, List.nodup_cons]
        exact ⟨h.1, h.2⟩
      · simp only [mapSet, hk, if_false]
        simp only [mapKeys, List.map_cons, List.nodup_cons]
        constructor
        · intro hmem
          rcases (mem_mapKeys_mapSet tl a k' v).1 hmem with h1 | h1
          · exact hk h1
          · exact h.1 h1
        · exact ih h.2

theorem count_mapKeys_mapSet {α : Type u} {β : Type v} [DecidableEq α]
    (m : List (α × β)) (a : α) (v : β)
    (h : (mapKeys m).Nodup) :
    (mapKeys (mapSet m a v)).count a = 1 := by
  have hmem : a ∈ mapKeys (mapSet m a v) :=
    (mem_mapKeys_mapSet m a a v).2 (Or.inl rfl)
  have hnd : (mapKeys (mapSet m a v)).Nodup := nodup_mapKeys_mapSet m a v h
  exact List.count_eq_one_of_mem hnd hmem

theorem mapKeys_mapDelete {α : Type u} {β : Type v} [DecidableEq α]
    (m : List (α × β)) (a : α) :
    mapKeys (mapDelete m a) = (mapKeys m).erase a := by
  induction m with
  | nil => simp [mapDelete, mapKeys]
  | cons hd tl ih =>
    cases hd with
    | mk k' v' =>
      by_cases hk : k' = a
      · subst hk
        simp [mapDelete, mapKeys, List.erase_cons_head]
      · simp only [mapDelete, hk, if_false]
        simp only [mapKeys, List.map_cons]
        rw [List.erase_cons_tail]
        · rw [show List.map Prod.fst (mapDelete tl a) =
              (List.map Prod.fst tl).erase a from ih]
        · simp [hk]

/-! ## Server model (`src/backend/src/lib/socket.js`) -/

/-- A chat message as returned by the external `Message.create` store call
(`src/backend/src/models/message.model.js`, external to the relay). -/
structure Message where
  senderId : String
  receiverId : String
  content : String
deriving DecidableEq, Repr

/-- Target of an emission: `io.emit` broadcasts to all connected peers;
`io.to(sid).emit` and `socket.emit` address one socket. -/
inductive Target where
  | all : Target
  | toSocket (sid : String) : Target
deriving DecidableEq, Repr

/-- The named payloads the server emits (rows of the Server → Client table). -/
inductive Payload where
  | usersOnline (ids : List String) : Payload
  | userDisconnected (clerkId : String) : Payload
  | activityUpdated (clerkId activity : String) : Payload
  | receiveMessage (m : Message) : Payload
  | messageError (err : String) : Payload
deriving DecidableEq, Repr

/-- One emitted event. -/
structure Emit where
  target : Target
  payload : Payload
deriving DecidableEq, Repr

/-- The server's shared mutable state: `userSockets` (clerkId ↦ socketId)
and `userActivities` (clerkId ↦ activity), both JS `Map`s. -/
structure ServerState where
  userSockets : List (String × String)
  userActivities : List (String × String)
deriving DecidableEq, Repr

/-- socket.js lines 19-29, the `user_connected` handler: store the socket id
against the clerk id, default the activity to "Online", and broadcast the
full list of online user ids to all peers. -/
def userConnectedHandler (st : ServerState) (clerkId sid : String) :
    ServerState × List Emit :=
  let sockets := mapSet st.userSockets clerkId sid
  let acts := mapSet st.userActivities clerkId "Online"
  (⟨sockets, acts⟩, [⟨Target.all, Payload.usersOnline (mapKeys sockets)⟩])

/-- socket.js lines 32-36, the `update_activity` handler (after payload
destructuring): set the activity and broadcast the delta to all peers. -/
def updateActivityHandler (st : ServerState) (clerkId activity : String) :
    ServerState × List Emit :=
  (⟨st.userSockets, mapSet st.userActivities clerkId activity⟩,
   [⟨Target.all, Payload.activityUpdated clerkId activity⟩])

/-- socket.js lines 39-71, the `send_message` handler.  The external
`Message.create` call is the only suspension point; its outcome is passed in
as `storeResult` (`Except.error e` models a rejected promise caught by the
`catch` block, whose `error.message` is `e`).  On failure the handler emits
`message_error` on the handling socket (`socket.emit`).  On success it looks
up receiver then sender in `userSockets` and emits `receive_message` to each
socket id found. -/
def sendMessageHandler (st : ServerState) (handlingSid : String)
    (senderId receiverId : String) (content : String)
    (storeResult : Except String Message) : ServerState × List Emit :=
  match storeResult with
  | Except.error e => (st, [⟨Target.toSocket handlingSid, Payload.messageError e⟩])
  | Except.ok message =>
    let receiverEmits : List Emit :=
      match mapGet st.userSockets receiverId with
      | some receiverSocketId =>
        [⟨Target.toSocket receiverSocketId, Payload.receiveMessage message⟩]
      | none => []
    let senderEmits : List Emit :=
      match mapGet st.userSockets senderId with
      | some senderSocketId =>
        [⟨Target.toSocket senderSocketId, Payload.receiveMessage message⟩]
      | none => []
    (st, receiverEmits ++ senderEmits)

/-- socket.js lines 77-84: scan `userSockets` in insertion order for the
entry whose socket id matches, returning its clerk id (the loop breaks at
the first match). -/
def findUserBySocket : List (String × String) → String → Option String
  | [], _ => none
  | (userId, socketId) :: rest, sid =>
    if socketId = sid then some userId else findUserBySocket rest sid

/-- socket.js lines 74-90, the `disconnect` handler: if some user owns the
disconnected socket id, delete it from both maps and broadcast
`user_disconnected` followed by the updated `users_online` list; otherwise
do nothing and emit nothing. -/
def disconnectHandler (st : ServerState) (sid : String) :
    ServerState × List Emit :=
  match findUserBySocket st.userSockets sid with
  | none => (st, [])
  | some disconnectedUserId =>
    let sockets := mapDelete st.userSockets disconnectedUserId
    let acts := mapDelete st.userActivities disconnectedUserId
    (⟨sockets, acts⟩,
     [⟨Target.all, Payload.userDisconnected disconnectedUserId⟩,
      ⟨Target.all, Payload.usersOnline (mapKeys sockets)⟩])

/-- One inbound server event (Client → Server table plus transport close),
with the outcome of the external store call attached to `send_message`. -/
inductive SEvent where
  | userConnected (clerkId sid : String) : SEvent
  | updateActivity (clerkId activity : String) : SEvent
  | sendMessageEv (handlingSid senderId receiverId content : String)
      (storeResult : Except String Message) : SEvent
  | disconnect (sid : String) : SEvent

/-- Dispatch one inbound event to its handler. -/
def step (st : ServerState) (e : SEvent) : ServerState × List Emit :=
  match e with
  | SEvent.userConnected clerkId sid => userConnectedHandler st clerkId sid
  | SEvent.updateActivity clerkId activity => updateActivityHandler st clerkId activity
  | SEvent.sendMessageEv h sId rId content res => sendMessageHandler st h sId rId content res
  | SEvent.disconnect sid => disconnectHandler st sid

/-- The state reached from the empty initial state (both maps fresh `new
Map()`) by a sequence of events. -/
def run (evs : List SEvent) : ServerState :=
  evs.foldl (fun st e => (step st e).1) ⟨[], []⟩

/-! ## Client session mirror (`src/frontend/src/stores/useChatStore.ts`) -/

/-- The slice of the frontend `User` type the store reads (`clerkId`). -/
structure User where
  clerkId : String
deriving DecidableEq, Repr

/-- The mirror state kept by `useChatStore`: online-user set, per-user
activity map, conversation-scoped message list, selected conversation. -/
structure ClientState where
  onlineUsers : List String
  userActivities : List (String × String)
  messages : List Message
  selectedUser : Option User
deriving DecidableEq, Repr

/-- The one event the store emits towards the server on a send. -/
inductive ClientEmit where
  | sendMessageEvent (receiverId senderId content : String) : ClientEmit
deriving DecidableEq, Repr

/-- useChatStore.ts lines 76-93, the `receive_message` listener: append the
message to `messages` exactly when it belongs to the conversation with the
selected user and the local identity (`currentUserId`, the `userId` captured
by `initSocket`).  With no selected user, `selectedUser?.clerkId` is
`undefined` and both string comparisons are false. -/
def receiveMessageListener (currentUserId : String) (st : ClientState)
    (message : Message) : ClientState :=
  let isFromSelectedUser : Bool :=
    match st.selectedUser with
    | some u => message.senderId = u.clerkId
    | none => false
  let isToSelectedUser : Bool :=
    match st.selectedUser with
    | some u => message.receiverId = u.clerkId
    | none => false
  if (isFromSelectedUser && decide (message.receiverId = currentUserId)) ||
     (isToSelectedUser && decide (message.senderId = currentUserId)) then
    { st with messages := st.messages ++ [message] }
  else
    st

/-- Trim as used by the guard in `sendMessage` (`content.trim()`):
leading and trailing whitespace removed. -/
def jsTrim (s : String) : String :=
  String.mk ((((s.data.dropWhile Char.isWhitespace).reverse).dropWhile
    Char.isWhitespace).reverse)

/-- useChatStore.ts lines 134-139, `sendMessage`: if the trimmed content is
empty (a falsy string) nothing is emitted and nothing is set; otherwise the
`send_message` event is emitted.  The `!socket` guard never fires in the
model: the module-level socket object always exists.  In either case the
store state is untouched (the function calls no `set`). -/
def sendMessage (st : ClientState) (receiverId senderId content : String) :
    ClientState × List ClientEmit :=
  if jsTrim content = "" then (st, [])
  else (st, [ClientEmit.sendMessageEvent receiverId senderId content])

/-! ## JS-object level model of the activity-update pipeline

The `update_activity` path crosses the wire twice with *literal field
names*: the server destructures `\x7b clerkId, activity \x7d` from the inbound
payload and emits an object with fields `clerkId` and `activity`
(socket.js lines 32-36), while the client listener destructures
`\x7b userId: updatedUserId, activity \x7d` from the received object
(useChatStore.ts lines 115-121).  To settle claims about this path the
payloads are embedded as JS objects: finite lists of named fields whose
values may be `undefined` (`none`); reading a missing field also yields
`undefined`.  A JS `Map` accepts `undefined` as a key, so the activity
maps at this level have `Option String` keys and values. -/

/-- A JS object: named fields, each possibly `undefined`. -/
def JsObj : Type := List (String × Option String)

/-- Property access `o.k` (as performed by destructuring): the field's
value, or `undefined` when the field is missing. -/
def jsGet (o : JsObj) (k : String) : Option String :=
  match o.find? (fun p => p.1 = k) with
  | some p => p.2
  | none => none

/-- socket.js lines 32-36 at the object level: the server reads fields
`clerkId` and `activity` from the inbound payload, stores the pair in
`userActivities`, and broadcasts the object `\x7b clerkId, activity \x7d`. -/
def updateActivityObjHandler (acts : List (Option String × Option String))
    (payload : JsObj) :
    (List (Option String × Option String)) × JsObj :=
  let clerkId := jsGet payload "clerkId"
  let activity := jsGet payload "activity"
  (mapSet acts clerkId activity, [("clerkId", clerkId), ("activity", activity)])

/-- useChatStore.ts lines 115-121 at the object level: the listener reads
fields `userId` and `activity` from the received object and stores the pair
in the mirror's `userActivities` map. -/
def activityUpdatedObjListener (acts : List (Option String × Option String))
    (payload : JsObj) : List (Option String × Option String) :=
  let updatedUserId := jsGet payload "userId"
  let activity := jsGet payload "activity"
  mapSet acts updatedUserId activity

/-- End-to-end pipeline for one `update_activity` event: the server handles
the inbound payload and every client mirror applies the broadcast object. -/
def activityPipeline (serverActs : List (Option String × Option String))
    (clientActs : List (Option String × Option String)) (payload : JsObj) :
    (List (Option String × Option String)) × List (Option String × Option String) :=
  let out := updateActivityObjHandler serverActs payload
  (out.1, activityUpdatedObjListener clientActs out.2)

/-! ## Emission classifiers -/

/-- Is this emission a `receive_message` delivery? -/
def isReceiveMessageEmit (em : Emit) : Bool :=
  match em.payload with
  | Payload.receiveMessage _ => true
  | _ => false

/-- Is this emission a `users_online` broadcast? -/
def isUsersOnlineEmit (em : Emit) : Bool :=
  match em.payload with
  | Payload.usersOnline _ => true
  | _ => false

/-- Is this emission an `activity_updated` broadcast? -/
def isActivityUpdatedEmit (em : Emit) : Bool :=
  match em.payload with
  | Payload.activityUpdated _ _ => true
  | _ => false

/-! ## Claims -/

/-- C1: the claim says that after the server handles `update_activity` for
user `u` with activity `a`, every client mirror's activity map maps `u` to
`a`.  Evaluating the pipeline at the failing input `u = "u1"`,
`a = "Coding"` shows otherwise: the server broadcasts the object with field
`clerkId`, the client listener destructures field `userId` (which is
`undefined`), so the mirror maps the key `undefined` — not `"u1"` — to
`"Coding"`, and looking up `"u1"` in the mirror still yields nothing.  The
same holds for the claim's literal payload shape with field `userId`, which
the server itself destructures as `clerkId = undefined`. -/
theorem c1_activity_field_mismatch :
    activityPipeline [] [] [("clerkId", some "u1"), ("activity", some "Coding")] =
      ([(some "u1", some "Coding")], [(none, some "Coding")]) ∧
    mapGet (activityPipeline [] []
      [("clerkId", some "u1"), ("activity", some "Coding")]).2 (some "u1") = none ∧
    activityPipeline [] [] [("userId", some "u1"), ("activity", some "Coding")] =
      ([(none, some "Coding")], [(none, some "Coding")]) ∧
    mapGet (activityPipeline [] []
      [("userId", some "u1"), ("activity", some "Coding")]).2 (some "u1") = none := by
  exact ⟨rfl, rfl, rfl, rfl⟩

/-- C2 (counterexample): the claim says a store failure emits `message_error`
only to the sender's current *registered* connection.  With sender `"A"`
registered at socket `"s2"` but the `send_message` request arriving on
socket `"s0"`, the handler emits the sole `message_error` to `"s0"`, not to
`"s2"`. -/
theorem c2_message_error_target_counterexample :
    (sendMessageHandler ⟨[("A", "s2")], [("A", "Online")]⟩ "s0" "A" "B" "hi"
        (Except.error "boom")).2 =
      [⟨Target.toSocket "s0", Payload.messageError "boom"⟩] ∧
    mapGet (ServerState.mk [("A", "s2")] [("A", "Online")]).userSockets "A" =
      some "s2" ∧
    Target.toSocket "s0" ≠ Target.toSocket "s2" := by
  refine ⟨rfl, rfl, ?_⟩
  decide

/-- C2 (amended): if the external store call fails, the state is unchanged
and exactly one event is emitted — a `message_error` addressed to the socket
the `send_message` request arrived on (regardless of the sender's registry
entry); in particular no `receive_message` and no broadcast occurs. -/
theorem c2_store_failure_error_to_handling_socket (st : ServerState)
    (handlingSid senderId receiverId content e : String) :
    sendMessageHandler st handlingSid senderId receiverId content
        (Except.error e) =
      (st, [⟨Target.toSocket handlingSid, Payload.messageError e⟩]) := rfl

/-- C3: delivery never precedes successful persistence — when the store call
fails no `receive_message` is emitted at all, and when it succeeds with
message `m` every emitted `receive_message` carries exactly the persisted
`m`. -/
theorem c3_no_delivery_before_persistence (st : ServerState)
    (handlingSid senderId receiverId content e : String) (m : Message) :
    ((sendMessageHandler st handlingSid senderId receiverId content
        (Except.error e)).2.filter isReceiveMessageEmit) = [] ∧
    ((sendMessageHandler st handlingSid senderId receiverId content
        (Except.ok m)).2.all
      (fun em => !(isReceiveMessageEmit em) ||
        (em.payload == Payload.receiveMessage m))) = true := by
  constructor
  · rfl
  · simp only [sendMessageHandler]
    cases mapGet st.userSockets receiverId <;>
      cases mapGet st.userSockets senderId <;>
        simp [isReceiveMessageEmit]

/-- C4: with sender `A` registered at socket `sA`, receiver `B` not
registered, and the store call succeeding with message `m`, the handler
leaves the state unchanged and emits exactly one event: `receive_message m`
to `A`'s connection; no `message_error` is emitted. -/
theorem c4_offline_receiver_delivers_to_sender_only (st : ServerState)
    (handlingSid content : String) (A B sA : String) (m : Message)
    (hA : mapGet st.userSockets A = some sA)
    (hB : mapGet st.userSockets B = none) :
    sendMessageHandler st handlingSid A B content (Except.ok m) =
      (st, [⟨Target.toSocket sA, Payload.receiveMessage m⟩]) := by
  simp [sendMessageHandler, hA, hB]

/-- Witness for C4 at a concrete state: `A` registered at `"s1"`, `B`
absent. -/
theorem c4_witness :
    sendMessageHandler ⟨[("A", "s1")], [("A", "Online")]⟩ "s1" "A" "B" "hi"
        (Except.ok ⟨"A", "B", "hi"⟩) =
      (⟨[("A", "s1")], [("A", "Online")]⟩,
       [⟨Target.toSocket "s1", Payload.receiveMessage ⟨"A", "B", "hi"⟩⟩]) :=
  c4_offline_receiver_delivers_to_sender_only _ _ _ "A" "B" _ _ rfl rfl

/-- C5: registering user `u` twice in succession (with any socket ids, from
any state whose registry keys are duplicate-free, as every JS `Map` is)
leaves exactly one registry entry for `u`, and the `users_online` list
broadcast by the second registration is precisely the registry's key list,
which contains `u` exactly once. -/
theorem c5_idempotent_registration (st : ServerState) (u c1 c2 : String)
    (h : (mapKeys st.userSockets).Nodup) :
    (mapKeys ((userConnectedHandler (userConnectedHandler st u c1).1 u
      c2).1.userSockets)).count u = 1 ∧
    (userConnectedHandler (userConnectedHandler st u c1).1 u c2).2 =
      [⟨Target.all, Payload.usersOnline
        (mapKeys ((userConnectedHandler (userConnectedHandler st u c1).1 u
          c2).1.userSockets))⟩] := by
  constructor
  · exact count_mapKeys_mapSet _ u c2 (nodup_mapKeys_mapSet _ u c1 h)
  · rfl

/-- Witness for C5: user `"A"` registered twice from the empty state. -/
theorem c5_witness :
    (mapKeys ((userConnectedHandler (userConnectedHandler ⟨[], []⟩ "A"
      "s1").1 "A" "s2").1.userSockets)).count "A" = 1 ∧
    (userConnectedHandler (userConnectedHandler ⟨[], []⟩ "A" "s1").1 "A"
      "s2").2 =
      [⟨Target.all, Payload.usersOnline
        (mapKeys ((userConnectedHandler (userConnectedHandler ⟨[], []⟩ "A"
          "s1").1 "A" "s2").1.userSockets))⟩] :=
  c5_idempotent_registration ⟨[], []⟩ "A" "s1" "s2" List.nodup_nil

/-- `socket.id` absent from the registry's values means the disconnect scan
finds nothing. -/
theorem findUserBySocket_eq_none (m : List (String × String)) (sid : String)
    (h : sid ∉ m.map Prod.snd) : findUserBySocket m sid = none := by
  induction m with
  | nil => rfl
  | cons hd tl ih =>
    cases hd with
    | mk u s =>
      simp only [List.map_cons, List.mem_cons] at h
      push_neg at h
      simp only [findUserBySocket]
      rw [if_neg]
      · exact ih h.2
      · exact fun hs => h.1 hs.symm

/-- C6: running the disconnect handler for a socket id that is not a value
of the registry is a no-op — both maps are unchanged and no event (no
`user_disconnected`, no `users_online`) is emitted. -/
theorem c6_unknown_connection_noop (st : ServerState) (sid : String)
    (h : sid ∉ st.userSockets.map Prod.snd) :
    disconnectHandler st sid = (st, []) := by
  simp [disconnectHandler, findUserBySocket_eq_none st.userSockets sid h]

/-- Witness for C6: socket `"s9"` is not registered. -/
theorem c6_witness :
    disconnectHandler ⟨[("A", "s1")], [("A", "Online")]⟩ "s9" =
      (⟨[("A", "s1")], [("A", "Online")]⟩, []) :=
  c6_unknown_connection_noop _ _ (by decide)

/-- C7: handling `update_activity` leaves the Connection Registry unchanged
and never emits a `users_online` broadcast; handling `user_connected` or a
disconnect never emits `activity_updated`. -/
theorem c7_delta_full_set_asymmetry (st : ServerState)
    (u a clerkId c sid : String) :
    (updateActivityHandler st u a).1.userSockets = st.userSockets ∧
    ((updateActivityHandler st u a).2.all
      (fun em => !(isUsersOnlineEmit em))) = true ∧
    ((userConnectedHandler st clerkId c).2.all
      (fun em => !(isActivityUpdatedEmit em))) = true ∧
    ((disconnectHandler st sid).2.all
      (fun em => !(isActivityUpdatedEmit em))) = true := by
  refine ⟨rfl, rfl, rfl, ?_⟩
  simp only [disconnectHandler]
  cases findUserBySocket st.userSockets sid <;> simp [isActivityUpdatedEmit]

/-- Follows the spec's wording for the client mirror's append filter: the
message's sender/receiver pair matches the conversation with the currently
selected user and includes the local identity as one endpoint. -/
def specAppendCondition (currentUserId : String) (selectedUser : Option User)
    (m : Message) : Bool :=
  match selectedUser with
  | none => false
  | some su =>
    (decide (m.senderId = su.clerkId) && decide (m.receiverId = currentUserId)) ||
    (decide (m.senderId = currentUserId) && decide (m.receiverId = su.clerkId))

/-- C8: the `receive_message` listener appends the message to `messages` if
and only if it matches the selected conversation and includes the local
identity as an endpoint; otherwise the whole store state is unchanged. -/
theorem c8_receive_message_filter (currentUserId : String) (st : ClientState)
    (m : Message) :
    receiveMessageListener currentUserId st m =
      (if specAppendCondition currentUserId st.selectedUser m then
        { st with messages := st.messages ++ [m] }
      else st) := by
  cases hsel : st.selectedUser with
  | none => simp [receiveMessageListener, specAppendCondition, hsel]
  | some su =>
    simp only [receiveMessageListener, specAppendCondition, hsel]
    by_cases h1 : m.senderId = su.clerkId <;>
      by_cases h2 : m.receiverId = currentUserId <;>
        by_cases h3 : m.receiverId = su.clerkId <;>
          by_cases h4 : m.senderId = currentUserId <;>
            simp [h1, h2, h3, h4]

/-- C9: calling `sendMessage` with content that is empty or consists only of
whitespace emits no `send_message` event and leaves the whole client store
state unchanged. -/
theorem c9_blank_content_no_emit (st : ClientState)
    (receiverId senderId content : String)
    (h : ∀ c ∈ content.data, c.isWhitespace = true) :
    sendMessage st receiverId senderId content = (st, []) := by
  have hdrop : content.data.dropWhile Char.isWhitespace = [] :=
    List.dropWhile_eq_nil_iff.2 (fun c hc => h c hc)
  have htrim : jsTrim content = "" := by
    unfold jsTrim
    rw [hdrop]
    rfl
  simp [sendMessage, htrim]

/-- Witness for C9: all-whitespace content. -/
theorem c9_witness :
    sendMessage ⟨[], [], [], none⟩ "B" "A" "  " = (⟨[], [], [], none⟩, []) :=
  c9_blank_content_no_emit _ _ _ _ (by decide)

/-- Well-formedness of the server maps: JS `Map`s never hold duplicate keys,
and every registered user has an activity entry. -/
def StateWF (st : ServerState) : Prop :=
  (mapKeys st.userSockets).Nodup ∧ (mapKeys st.userActivities).Nodup ∧
  ∀ k, k ∈ mapKeys st.userSockets → k ∈ mapKeys st.userActivities

theorem stateWF_step (st : ServerState) (e : SEvent) (h : StateWF st) :
    StateWF (step st e).1 := by
  obtain ⟨h1, h2, h3⟩ := h
  cases e with
  | userConnected clerkId sid =>
    refine ⟨nodup_mapKeys_mapSet _ _ _ h1, nodup_mapKeys_mapSet _ _ _ h2, ?_⟩
    intro k hk
    rcases (mem_mapKeys_mapSet _ _ _ _).1 hk with rfl | hk'
    · exact (mem_mapKeys_mapSet _ _ _ _).2 (Or.inl rfl)
    · exact (mem_mapKeys_mapSet _ _ _ _).2 (Or.inr (h3 k hk'))
  | updateActivity clerkId activity =>
    refine ⟨h1, nodup_mapKeys_mapSet _ _ _ h2, ?_⟩
    intro k hk
    exact (mem_mapKeys_mapSet _ _ _ _).2 (Or.inr (h3 k hk))
  | sendMessageEv hs sId rId content res =>
    cases res with
    | error e => exact ⟨h1, h2, h3⟩
    | ok m =>
      refine ⟨?_, ?_, ?_⟩ <;>
        simp only [step, sendMessageHandler] <;>
          first
            | exact h1
            | exact h2
            | exact h3
  | disconnect sid =>
    cases hf : findUserBySocket st.userSockets sid with
    | none =>
      simp only [step, disconnectHandler, hf]
      exact ⟨h1, h2, h3⟩
    | some u =>
      simp only [step, disconnectHandler, hf]
      refine ⟨?_, ?_, ?_⟩
      · rw [mapKeys_mapDelete]
        exact h1.erase u
      · rw [mapKeys_mapDelete]
        exact h2.erase u
      · intro k hk
        rw [mapKeys_mapDelete] at hk
        rw [mapKeys_mapDelete]
        have hk' := (List.Nodup.mem_erase_iff h1).1 hk
        exact (List.Nodup.mem_erase_iff h2).2 ⟨hk'.1, h3 k hk'.2⟩

theorem stateWF_foldl (evs : List SEvent) (st : ServerState)
    (h : StateWF st) :
    StateWF (evs.foldl (fun s e => (step s e).1) st) := by
  induction evs generalizing st with
  | nil => exact h
  | cons e rest ih => exact ih _ (stateWF_step st e h)

/-- C10: in every server state reachable from the empty initial state by any
event sequence, every key of the Connection Registry (`userSockets`) is also
a key of the Activity Tracker (`userActivities`). -/
theorem c10_registry_keys_sub_activity_keys (evs : List SEvent) (k : String)
    (h : k ∈ mapKeys (run evs).userSockets) :
    k ∈ mapKeys (run evs).userActivities := by
  have hwf : StateWF (run evs) :=
    stateWF_foldl evs ⟨[], []⟩
      ⟨List.nodup_nil, List.nodup_nil, fun k hk => absurd hk (by simp [mapKeys])⟩
  exact hwf.2.2 k h

/-- Witness for C10: after a single registration of `"A"`, the key `"A"` is
in the registry and hence in the activity map. -/
theorem c10_witness :
    "A" ∈ mapKeys (run [SEvent.userConnected "A" "s1"]).userActivities :=
  c10_registry_keys_sub_activity_keys [SEvent.userConnected "A" "s1"] "A"
    (by decide)
